import Mathlib

/-!
Shallow embedding of the SmartSpend expense tracker (`src/app.py`).

Modelling conventions:
* Python `float` amounts are embedded as exact rationals (`ℚ`).
* A calendar date (the `date` column, stored as ISO text and parsed back by
  `pd.to_datetime`) is a `Date` triple; `dateToDays` is the proleptic-Gregorian
  day number (the standard civil-from-days algorithm), so that
  `datetime` comparison and `timedelta(days := n)` arithmetic become integer
  arithmetic on microseconds.
* `datetime.now()` is dependency-injected as an explicit `DateTime` argument
  (a date plus microseconds elapsed since midnight).
* `created_at` (`TIMESTAMP DEFAULT CURRENT_TIMESTAMP`) is modelled as a
  strictly increasing insertion counter, so consecutive inserts have distinct,
  increasing `createdAt` values.
* SQL `ORDER BY` and `pandas.sort_values` are modelled by the stable
  `List.insertionSort`.
* `pandas.Series.mode()` returns the most frequent values sorted in ascending
  order; `pandasMode` reproduces that contract.
-/

namespace SmartSpend

/-- A calendar date `YYYY-MM-DD` as stored in the `date` column. -/
structure Date where
  year : Int
  month : Nat
  day : Nat
deriving DecidableEq, Repr

/-- Day number of a civil date (days since 1970-01-01, proleptic Gregorian);
the standard `days_from_civil` algorithm.  `pd.to_datetime` turns the stored
ISO date into midnight of this day. -/
def dateToDays (d : Date) : Int :=
  let y : Int := if d.month ≤ 2 then d.year - 1 else d.year
  let era : Int := Int.fdiv y 400
  let yoe : Int := y - era * 400
  let mp : Int := (Int.ofNat d.month + 9) % 12
  let doy : Int := Int.fdiv (153 * mp + 2) 5 + Int.ofNat d.day - 1
  let doe : Int := yoe * 365 + Int.fdiv yoe 4 - Int.fdiv yoe 100 + doy
  era * 146097 + doe - 719468

/-- Microseconds per day (`timedelta(days=1)` at `datetime` resolution). -/
def usecPerDay : Int := 86400000000

/-- A `datetime.datetime` instant: a calendar date plus the microseconds
elapsed since that day's midnight. -/
structure DateTime where
  date : Date
  usecOfDay : Nat
deriving DecidableEq, Repr

/-- Position of an instant on the time line, in microseconds. -/
def DateTime.toUsec (t : DateTime) : Int :=
  dateToDays t.date * usecPerDay + t.usecOfDay

/-- One row of the `expenses` table. -/
structure ExpenseRow where
  id : Nat
  userId : Nat
  category : String
  amount : ℚ
  date : Date
  description : String
  createdAt : Nat
deriving DecidableEq, Repr

/-- The `ExpenseSummary` dataclass of `src/app.py`. -/
structure ExpenseSummary where
  total_expenses : ℚ
  average_expense : ℚ
  expense_count : Nat
  top_category : String
  largest_expense : ℚ
  monthly_expenses : ℚ
  last_30_days : ℚ
  last_7_days : ℚ
  daily_average : ℚ
deriving DecidableEq, Repr

/-- `ExpenseCategory.get_list()`. -/
def categoryList : List String :=
  ["Food", "Transport", "Shopping", "Bills", "Entertainment", "Healthcare",
   "Education", "Investment", "Other"]

/-- The current-month mask of `get_expense_summary`:
`(df.date.dt.month == today.month) and (df.date.dt.year == today.year)`. -/
def inCurrentMonth (d : Date) (now : DateTime) : Prop :=
  d.month = now.date.month ∧ d.year = now.date.year

instance (d : Date) (now : DateTime) : Decidable (inCurrentMonth d now) := by
  unfold inCurrentMonth; exact inferInstance

/-- The trailing-window mask of `get_expense_summary` and
`create_daily_expense_chart`: `df.date >= now - timedelta(days := n)`, where
`df.date` is the record date at midnight and `now` is a full timestamp. -/
def inLastNDays (d : Date) (now : DateTime) (n : Nat) : Prop :=
  now.toUsec - n * usecPerDay ≤ dateToDays d * usecPerDay

instance (d : Date) (now : DateTime) (n : Nat) : Decidable (inLastNDays d now n) := by
  unfold inLastNDays; exact inferInstance

/-- The `ORDER BY date DESC, created_at DESC` ordering of the SQL query in
`get_user_expenses` (ISO date text compares chronologically). -/
def fetchLe (x y : ExpenseRow) : Prop :=
  dateToDays y.date < dateToDays x.date ∨
    (dateToDays x.date = dateToDays y.date ∧ y.createdAt ≤ x.createdAt)

instance : DecidableRel fetchLe := fun x y => by
  unfold fetchLe; exact inferInstance

instance : IsTotal ExpenseRow fetchLe := by
  constructor
  intro a b
  rcases lt_trichotomy (dateToDays a.date) (dateToDays b.date) with h | h | h
  · exact Or.inr (Or.inl h)
  · rcases Nat.le_total a.createdAt b.createdAt with hc | hc
    · exact Or.inr (Or.inr ⟨h.symm, hc⟩)
    · exact Or.inl (Or.inr ⟨h, hc⟩)
  · exact Or.inl (Or.inl h)

instance : IsTrans ExpenseRow fetchLe := by
  constructor
  intro a b c hab hbc
  rcases hab with h1 | ⟨h1, h1'⟩ <;> rcases hbc with h2 | ⟨h2, h2'⟩
  · exact Or.inl (h2.trans h1)
  · exact Or.inl (h2 ▸ h1)
  · exact Or.inl (h1 ▸ h2)
  · exact Or.inr ⟨h1.trans h2, h2'.trans h1'⟩

/-- `df.sort_values('date')` ordering used by `create_spending_timeline`
(the date column holds midnight timestamps, so it orders by day number). -/
def dateLe (x y : ExpenseRow) : Prop :=
  dateToDays x.date ≤ dateToDays y.date

instance : DecidableRel dateLe := fun x y => by
  unfold dateLe; exact inferInstance

instance : IsTotal ExpenseRow dateLe :=
  ⟨fun a b => Int.le_total (dateToDays a.date) (dateToDays b.date)⟩

instance : IsTrans ExpenseRow dateLe :=
  ⟨fun _ _ _ h h' => le_trans h h'⟩

/-- Ascending-by-date order with ties strictly descending in `createdAt`:
with the fetch ordering `date DESC, created_at DESC` feeding a stable
ascending sort on the date, equal-date rows come out in reverse insertion
order. -/
def tlLe (x y : ExpenseRow) : Prop :=
  dateToDays x.date < dateToDays y.date ∨
    (dateToDays x.date = dateToDays y.date ∧ y.createdAt < x.createdAt)

instance : DecidableRel tlLe := fun x y => by
  unfold tlLe; exact inferInstance

/-- `get_user_expenses`: the user's rows, ordered by
`date DESC, created_at DESC`. -/
def get_user_expenses (db : List ExpenseRow) (uid : Nat) : List ExpenseRow :=
  (db.filter fun r => decide (r.userId = uid)).insertionSort fetchLe

/-- `pandas.Series.mode()`: the values attaining the maximal multiplicity,
sorted in ascending order. -/
def pandasMode (xs : List String) : List String :=
  let uniq := xs.dedup
  let m := (uniq.map fun c => xs.count c).foldr max 0
  (uniq.filter fun c => decide (xs.count c = m)).insertionSort (· ≤ ·)

/-- The `top_category` computation of `get_expense_summary`:
`df.category.mode().iloc[0]`, with the `'N/A'` fallback. -/
def topCategory (xs : List String) : String :=
  match pandasMode xs with
  | [] => "N/A"
  | c :: _ => c

/-- `df.amount.max()` on a list of amounts. -/
def listMax : List ℚ → ℚ
  | [] => 0
  | a :: t => t.foldl max a

/-- `ExpenseManager.get_expense_summary`, with `datetime.now()` injected as
`now`.  Returns `none` when the user has no expenses. -/
def get_expense_summary (db : List ExpenseRow) (uid : Nat) (now : DateTime) :
    Option ExpenseSummary :=
  let df := get_user_expenses db uid
  if df.isEmpty then none
  else
    let amounts := df.map (·.amount)
    let monthly := ((df.filter fun r => decide (inCurrentMonth r.date now)).map (·.amount)).sum
    let last30 := ((df.filter fun r => decide (inLastNDays r.date now 30)).map (·.amount)).sum
    let last7 := ((df.filter fun r => decide (inLastNDays r.date now 7)).map (·.amount)).sum
    some
      { total_expenses := amounts.sum
        average_expense := amounts.sum / (df.length : ℚ)
        expense_count := df.length
        top_category := topCategory (df.map (·.category))
        largest_expense := listMax amounts
        monthly_expenses := monthly
        last_30_days := last30
        last_7_days := last7
        daily_average := if 0 < last30 then last30 / 30 else 0 }

/-- One point of the cumulative spending timeline: the record's date and
amount together with the running total. -/
structure TimelineEntry where
  date : Date
  amount : ℚ
  cumulative : ℚ
deriving DecidableEq, Repr

/-- The `cumsum` pass of `create_spending_timeline`, threading the
accumulator. -/
def cumFrom (acc : ℚ) : List ExpenseRow → List TimelineEntry
  | [] => []
  | r :: t =>
    { date := r.date, amount := r.amount, cumulative := acc + r.amount } ::
      cumFrom (acc + r.amount) t

/-- `ChartGenerator.create_spending_timeline`: `none` on an empty frame,
otherwise the date-sorted rows with their cumulative amounts. -/
def create_spending_timeline (df : List ExpenseRow) : Option (List TimelineEntry) :=
  if df.isEmpty then none
  else some (cumFrom 0 (df.insertionSort dateLe))

/-- Grouping key of `create_monthly_trend_chart`:
`df.date.dt.to_period('M')`. -/
def monthKey (r : ExpenseRow) : Int × Nat :=
  (r.date.year, r.date.month)

/-- Ascending order on `(year, month)` period keys (pandas `groupby` sorts
its keys). -/
def monthLe (a b : Int × Nat) : Prop :=
  a.1 < b.1 ∨ (a.1 = b.1 ∧ a.2 ≤ b.2)

instance : DecidableRel monthLe := fun a b => by
  unfold monthLe; exact inferInstance

/-- `ChartGenerator.create_monthly_trend_chart` data: per calendar month the
total amount and the transaction count; `none` on an empty frame. -/
def create_monthly_trend_chart (df : List ExpenseRow) :
    Option (List ((Int × Nat) × ℚ × Nat)) :=
  if df.isEmpty then none
  else
    let keys := ((df.map monthKey).dedup).insertionSort monthLe
    some (keys.map fun k =>
      (k, ((df.filter fun r => decide (monthKey r = k)).map (·.amount)).sum,
        (df.filter fun r => decide (monthKey r = k)).length))

/-- `df.groupby('category').amount.sum()`: one `(category, total)` pair per
distinct category, keys in ascending order. -/
def catTotals (df : List ExpenseRow) : List (String × ℚ) :=
  let keys := ((df.map (·.category)).dedup).insertionSort (· ≤ ·)
  keys.map fun c =>
    (c, ((df.filter fun r => decide (r.category = c)).map (·.amount)).sum)

/-- `sort_values('amount', ascending=False)` order on category totals. -/
def amountDescLe (a b : String × ℚ) : Prop := b.2 ≤ a.2

instance : DecidableRel amountDescLe := fun a b => by
  unfold amountDescLe; exact inferInstance

/-- `sort_values('amount', ascending=True)` order on category totals. -/
def amountAscLe (a b : String × ℚ) : Prop := a.2 ≤ b.2

instance : DecidableRel amountAscLe := fun a b => by
  unfold amountAscLe; exact inferInstance

/-- `ChartGenerator.create_category_pie_chart` data: category totals sorted
by amount descending; `none` on an empty frame. -/
def create_category_pie_chart (df : List ExpenseRow) : Option (List (String × ℚ)) :=
  if df.isEmpty then none
  else some ((catTotals df).insertionSort amountDescLe)

/-- `ChartGenerator.create_category_bar_chart` data: category totals sorted
by amount ascending; `none` on an empty frame. -/
def create_category_bar_chart (df : List ExpenseRow) : Option (List (String × ℚ)) :=
  if df.isEmpty then none
  else some ((catTotals df).insertionSort amountAscLe)

/-- Ascending order on dates. -/
def dayLe (a b : Date) : Prop := dateToDays a ≤ dateToDays b

instance : DecidableRel dayLe := fun a b => by
  unfold dayLe; exact inferInstance

/-- `ChartGenerator.create_daily_expense_chart` data: rows of the trailing
`days` window grouped by calendar day; `none` on an empty frame or an empty
window. -/
def create_daily_expense_chart (df : List ExpenseRow) (now : DateTime)
    (days : Nat) : Option (List (Date × ℚ)) :=
  if df.isEmpty then none
  else
    let recent := df.filter fun r => decide (inLastNDays r.date now days)
    if recent.isEmpty then none
    else
      let keys := ((recent.map (·.date)).dedup).insertionSort dayLe
      some (keys.map fun d =>
        (d, ((recent.filter fun r => decide (r.date = d)).map (·.amount)).sum))

/-- The durable `expenses` table plus the id / insertion-time counters the
database supplies (`AUTOINCREMENT` and `CURRENT_TIMESTAMP`). -/
structure ExpenseStore where
  rows : List ExpenseRow
  nextId : Nat
  nextCreatedAt : Nat
deriving DecidableEq, Repr

/-- `ExpenseManager.add_expense`: validates the amount and the category, then
inserts the row. -/
def add_expense (st : ExpenseStore) (uid : Nat) (category : String)
    (amount : ℚ) (d : Date) (descr : String) : (Bool × String) × ExpenseStore :=
  if amount ≤ 0 then ((false, "Amount must be greater than zero"), st)
  else if category ∉ categoryList then ((false, "Invalid category"), st)
  else
    ((true, "Expense added successfully!"),
      { rows := st.rows ++
          [{ id := st.nextId, userId := uid, category := category.trim,
             amount := amount, date := d, description := descr.trim,
             createdAt := st.nextCreatedAt }],
        nextId := st.nextId + 1,
        nextCreatedAt := st.nextCreatedAt + 1 })

/-- `ExpenseManager.delete_expense`:
`DELETE FROM expenses WHERE id = ? AND user_id = ?`, then branches on the
affected row count. -/
def delete_expense (st : ExpenseStore) (eid uid : Nat) :
    (Bool × String) × ExpenseStore :=
  let remaining := st.rows.filter fun r => decide (¬(r.id = eid ∧ r.userId = uid))
  let affected := st.rows.countP fun r => decide (r.id = eid ∧ r.userId = uid)
  if 0 < affected then
    ((true, "Expense deleted successfully!"), { st with rows := remaining })
  else
    ((false, "Expense not found or access denied"), { st with rows := remaining })

/-- The `users` table, reduced to the data the claims touch: the stored
usernames (the hash and salt columns are opaque to every claim). -/
structure UserDb where
  usernames : List String
deriving DecidableEq, Repr

/-- `Config.PASSWORD_MIN_LENGTH`. -/
def PASSWORD_MIN_LENGTH : Nat := 8

/-- Python `str.isalnum()` (ASCII fragment). -/
def pyIsAlnum (s : String) : Bool :=
  !s.isEmpty && s.toList.all Char.isAlphanum

/-- `SecurityManager.validate_username`. -/
def validate_username (username : String) : Bool × String :=
  if username = "" ∨ username.trim.length < 3 then
    (false, "Username must be at least 3 characters")
  else if !pyIsAlnum ((username.replace "_" "").replace "-" "") then
    (false, "Username can only contain letters, numbers, underscore and hyphen")
  else (true, "")

/-- `SecurityManager.validate_password_strength` (character classes read at
ASCII granularity). -/
def validate_password_strength (password : String) : Bool × String :=
  if password.length < PASSWORD_MIN_LENGTH then
    (false, "Password must be at least 8 characters")
  else if !password.toList.any Char.isUpper then
    (false, "Password must contain at least one uppercase letter")
  else if !password.toList.any Char.isLower then
    (false, "Password must contain at least one lowercase letter")
  else if !password.toList.any Char.isDigit then
    (false, "Password must contain at least one number")
  else (true, "")

/-- `UserManager.create_user`: username validation, password validation, then
the insert (a duplicate username raises `IntegrityError`, reported as a
failure).  Hashing does not affect which rows exist, so the stored row is
reduced to the username. -/
def create_user (db : UserDb) (username password : String) :
    (Bool × String) × UserDb :=
  let uname := username.trim
  let v1 := validate_username uname
  if !v1.1 then ((false, v1.2), db)
  else
    let v2 := validate_password_strength password
    if !v2.1 then ((false, v2.2), db)
    else if uname ∈ db.usernames then ((false, "Username already exists"), db)
    else ((true, "Account created successfully!"), ⟨db.usernames ++ [uname]⟩)

/-! ### Claim C4: empty record set -/

/-- Claim C4 (confirmed): for an empty record set, `get_expense_summary`
returns no summary (`none`, not a zeroed one), and every chart builder
returns its empty result (`none`), so callers can distinguish "no data yet"
from a summary of zeros. -/
theorem C4_empty_snapshot (db : List ExpenseRow) (uid : Nat) (now : DateTime)
    (days : Nat) (h : get_user_expenses db uid = []) :
    get_expense_summary db uid now = none ∧
    create_spending_timeline (get_user_expenses db uid) = none ∧
    create_monthly_trend_chart (get_user_expenses db uid) = none ∧
    create_category_pie_chart (get_user_expenses db uid) = none ∧
    create_category_bar_chart (get_user_expenses db uid) = none ∧
    create_daily_expense_chart (get_user_expenses db uid) now days = none := by
  refine ⟨?_, ?_, ?_, ?_, ?_, ?_⟩ <;>
    simp [get_expense_summary, create_spending_timeline,
      create_monthly_trend_chart, create_category_pie_chart,
      create_category_bar_chart, create_daily_expense_chart, h]

/-- Witness for C4 at the empty database. -/
theorem C4_empty_snapshot_witness :
    get_expense_summary [] 1 ⟨⟨2024, 1, 20⟩, 0⟩ = none ∧
    create_spending_timeline (get_user_expenses [] 1) = none ∧
    create_monthly_trend_chart (get_user_expenses [] 1) = none ∧
    create_category_pie_chart (get_user_expenses [] 1) = none ∧
    create_category_bar_chart (get_user_expenses [] 1) = none ∧
    create_daily_expense_chart (get_user_expenses [] 1) ⟨⟨2024, 1, 20⟩, 0⟩ 30 = none :=
  C4_empty_snapshot [] 1 ⟨⟨2024, 1, 20⟩, 0⟩ 30 rfl

/-! ### Claim C5: delete of a record not owned by the caller -/

/-- Claim C5 (confirmed): when no stored row has the requested id and owner,
`delete_expense` reports the not-found-or-forbidden failure and the store is
completely unchanged (in particular a row with that id owned by someone else
survives). -/
theorem C5_delete_not_owned (st : ExpenseStore) (eid uid : Nat)
    (h : ∀ r ∈ st.rows, ¬(r.id = eid ∧ r.userId = uid)) :
    delete_expense st eid uid = ((false, "Expense not found or access denied"), st) := by
  have hf : (st.rows.filter fun r => decide (¬(r.id = eid ∧ r.userId = uid))) = st.rows :=
    List.filter_eq_self.mpr fun r hr => by
      simp only [decide_eq_true_eq]
      exact h r hr
  have hc : (st.rows.countP fun r => decide (r.id = eid ∧ r.userId = uid)) = 0 :=
    List.countP_eq_zero.mpr fun r hr => by
      simp only [decide_eq_true_eq]
      exact h r hr
  rw [delete_expense]
  simp only [hf, hc, lt_irrefl, if_false]

/-- Witness for C5: deleting id 5 as user 1 when the only id-5 row belongs to
user 2 fails and leaves user 2's row in place. -/
theorem C5_delete_not_owned_witness :
    delete_expense
        ⟨[⟨5, 2, "Food", 10, ⟨2024, 1, 10⟩, "", 1⟩], 6, 2⟩ 5 1 =
      ((false, "Expense not found or access denied"),
        ⟨[⟨5, 2, "Food", 10, ⟨2024, 1, 10⟩, "", 1⟩], 6, 2⟩) :=
  C5_delete_not_owned ⟨[⟨5, 2, "Food", 10, ⟨2024, 1, 10⟩, "", 1⟩], 6, 2⟩ 5 1
    (by decide)

/-! ### Claim C6: addExpense validation -/

/-- Counterexample for C6: the claim says the successful call returns the new
id, but `add_expense` returns only a success flag and a fixed message.  Two
stores about to assign different ids (1 versus 7) produce identical return
values, so the return value cannot carry the new id. -/
theorem C6_counterexample :
    (add_expense ⟨[], 1, 1⟩ 1 "Food" 5 ⟨2024, 1, 10⟩ "").1 =
      (add_expense ⟨[], 7, 9⟩ 1 "Food" 5 ⟨2024, 1, 10⟩ "").1 ∧
    (add_expense ⟨[], 1, 1⟩ 1 "Food" 5 ⟨2024, 1, 10⟩ "").2.rows.map (·.id) = [1] ∧
    (add_expense ⟨[], 7, 9⟩ 1 "Food" 5 ⟨2024, 1, 10⟩ "").2.rows.map (·.id) = [7] := by
  decide

/-- Claim C6 (corrected): `add_expense` rejects `amount ≤ 0` with the
invalid-amount error and leaves the store unchanged; rejects a category
outside the closed enumeration with the invalid-category error and leaves the
store unchanged; and otherwise appends exactly the new record (with the fresh
id the store assigns) and returns success — a flag and message, not the new
id. -/
theorem C6_add_validation (st : ExpenseStore) (uid : Nat) (cat : String)
    (amt : ℚ) (d : Date) (ds : String) :
    (amt ≤ 0 →
      add_expense st uid cat amt d ds = ((false, "Amount must be greater than zero"), st)) ∧
    (0 < amt → cat ∉ categoryList →
      add_expense st uid cat amt d ds = ((false, "Invalid category"), st)) ∧
    (0 < amt → cat ∈ categoryList →
      add_expense st uid cat amt d ds =
        ((true, "Expense added successfully!"),
          { rows := st.rows ++
              [{ id := st.nextId, userId := uid, category := cat.trim,
                 amount := amt, date := d, description := ds.trim,
                 createdAt := st.nextCreatedAt }],
            nextId := st.nextId + 1,
            nextCreatedAt := st.nextCreatedAt + 1 })) := by
  refine ⟨fun h => ?_, fun h hnc => ?_, fun h hc => ?_⟩ <;> rw [add_expense]
  · rw [if_pos h]
  · rw [if_neg (not_le.mpr h), if_pos hnc]
  · rw [if_neg (not_le.mpr h), if_neg (not_not_intro hc)]

/-- Witness for C6: `amount = 0` is rejected with the invalid-amount message
and nothing is inserted. -/
theorem C6_add_validation_witness :
    add_expense ⟨[], 1, 1⟩ 1 "Food" 0 ⟨2024, 1, 10⟩ "" =
      ((false, "Amount must be greater than zero"), ⟨[], 1, 1⟩) :=
  (C6_add_validation ⟨[], 1, 1⟩ 1 "Food" 0 ⟨2024, 1, 10⟩ "").1 le_rfl

/-! ### Claim C9: daily average policy branch -/

/-- Claim C9 (confirmed): `daily_average` equals `last_30_days / 30` whenever
`last_30_days > 0` and equals `0` whenever `last_30_days = 0`. -/
theorem C9_daily_average_policy (db : List ExpenseRow) (uid : Nat)
    (now : DateTime) (s : ExpenseSummary)
    (h : get_expense_summary db uid now = some s) :
    (0 < s.last_30_days → s.daily_average = s.last_30_days / 30) ∧
    (s.last_30_days = 0 → s.daily_average = 0) := by
  have hd : s.daily_average =
      if 0 < s.last_30_days then s.last_30_days / 30 else 0 := by
    rw [get_expense_summary] at h
    split at h
    · exact absurd h (by simp)
    · rw [Option.some_inj] at h
      subst h
      rfl
  constructor
  · intro h30
    rw [hd, if_pos h30]
  · intro h30
    rw [hd, h30]
    norm_num

/-- Witness for C9 on a one-record set whose 30-day total is positive. -/
theorem C9_daily_average_policy_witness :
    (0 < (ExpenseSummary.mk 5 5 1 "Food" 5 5 5 0 (1/6)).last_30_days →
      (ExpenseSummary.mk 5 5 1 "Food" 5 5 5 0 (1/6)).daily_average =
        (ExpenseSummary.mk 5 5 1 "Food" 5 5 5 0 (1/6)).last_30_days / 30) ∧
    ((ExpenseSummary.mk 5 5 1 "Food" 5 5 5 0 (1/6)).last_30_days = 0 →
      (ExpenseSummary.mk 5 5 1 "Food" 5 5 5 0 (1/6)).daily_average = 0) :=
  have h : get_expense_summary
      [{ id := 1, userId := 1, category := "Food", amount := 5,
         date := ⟨2024, 1, 13⟩, description := "", createdAt := 1 }] 1
      ⟨⟨2024, 1, 20⟩, 36000000000⟩ =
      some (ExpenseSummary.mk 5 5 1 "Food" 5 5 5 0 (1/6)) := by
    with_unfolding_all rfl
  C9_daily_average_policy
    [{ id := 1, userId := 1, category := "Food", amount := 5,
       date := ⟨2024, 1, 13⟩, description := "", createdAt := 1 }] 1
    ⟨⟨2024, 1, 20⟩, 36000000000⟩
    (ExpenseSummary.mk 5 5 1 "Food" 5 5 5 0 (1/6)) h

/-! ### Claim C1: trailing-window membership -/

/-- Counterexample for C1: the record is dated exactly 7 days before the
reference instant (2024-01-13 versus 2024-01-20 10:00), yet it contributes
nothing to `last_7_days` (its amount 5 does appear in `total_expenses`),
because the source compares the record's midnight timestamp against
`now - timedelta(days=7)`, a timestamp with a time-of-day component. -/
theorem C1_counterexample :
    dateToDays (⟨2024, 1, 20⟩ : Date) = dateToDays (⟨2024, 1, 13⟩ : Date) + 7 ∧
    (get_expense_summary
        [{ id := 1, userId := 1, category := "Food", amount := 5,
           date := ⟨2024, 1, 13⟩, description := "", createdAt := 1 }] 1
        ⟨⟨2024, 1, 20⟩, 36000000000⟩).map (·.last_7_days) = some 0 ∧
    (get_expense_summary
        [{ id := 1, userId := 1, category := "Food", amount := 5,
           date := ⟨2024, 1, 13⟩, description := "", createdAt := 1 }] 1
        ⟨⟨2024, 1, 20⟩, 36000000000⟩).map (·.total_expenses) = some 5 := by
  refine ⟨by decide, ?_, ?_⟩ <;> with_unfolding_all rfl

/-- Claim C1 (corrected): window membership is decided by a timestamp
comparison, not a date-granular difference.  `last_7_days` / `last_30_days`
sum the amounts of the records whose midnight timestamp is `≥ now - 7` (resp.
30) days, and a record dated exactly `n` days before the reference instant is
in the `n`-day window iff the reference instant's time-of-day is exactly
midnight. -/
theorem C1_window_by_timestamp :
    (∀ (db : List ExpenseRow) (uid : Nat) (now : DateTime) (s : ExpenseSummary),
        get_expense_summary db uid now = some s →
        s.last_7_days = (((get_user_expenses db uid).filter fun r =>
            decide (inLastNDays r.date now 7)).map (·.amount)).sum ∧
        s.last_30_days = (((get_user_expenses db uid).filter fun r =>
            decide (inLastNDays r.date now 30)).map (·.amount)).sum) ∧
    (∀ (d : Date) (now : DateTime) (n : Nat),
        dateToDays now.date = dateToDays d + n →
        (inLastNDays d now n ↔ now.usecOfDay = 0)) := by
  constructor
  · intro db uid now s h
    rw [get_expense_summary] at h
    split at h
    · exact absurd h (by simp)
    · rw [Option.some_inj] at h
      subst h
      exact ⟨rfl, rfl⟩
  · intro d now n h
    simp only [inLastNDays, DateTime.toUsec, usecPerDay, h]
    omega

/-- Witness for C1: a record dated exactly 7 days before a reference instant
that falls on midnight is inside the 7-day window. -/
theorem C1_window_by_timestamp_witness :
    inLastNDays ⟨2024, 1, 13⟩ ⟨⟨2024, 1, 20⟩, 0⟩ 7 :=
  (C1_window_by_timestamp.2 ⟨2024, 1, 13⟩ ⟨⟨2024, 1, 20⟩, 0⟩ 7 (by decide)).mpr rfl

/-! ### Claim C8: monotone window totals -/

/-- Claim C8 (confirmed): with every stored amount positive, the windowed
totals are monotone: `monthly_expenses ≤ total_expenses` and
`last_7_days ≤ last_30_days ≤ total_expenses`. -/
theorem C8_window_totals_monotone (db : List ExpenseRow) (uid : Nat)
    (now : DateTime) (s : ExpenseSummary)
    (hpos : ∀ r ∈ db, 0 < r.amount)
    (h : get_expense_summary db uid now = some s) :
    s.monthly_expenses ≤ s.total_expenses ∧
    s.last_7_days ≤ s.last_30_days ∧
    s.last_30_days ≤ s.total_expenses := by
  have hnn : ∀ a ∈ (get_user_expenses db uid).map (·.amount), 0 ≤ a := by
    intro a ha
    rcases List.mem_map.mp ha with ⟨r, hr, rfl⟩
    have hr' : r ∈ db := by
      rw [get_user_expenses] at hr
      exact (List.mem_filter.mp ((List.mem_insertionSort fetchLe).mp hr)).1
    exact le_of_lt (hpos r hr')
  rw [get_expense_summary] at h
  split at h
  · exact absurd h (by simp)
  · rw [Option.some_inj] at h
    subst h
    refine ⟨?_, ?_, ?_⟩
    · show (((get_user_expenses db uid).filter fun r =>
          decide (inCurrentMonth r.date now)).map (·.amount)).sum ≤
        ((get_user_expenses db uid).map (·.amount)).sum
      exact List.Sublist.sum_le_sum ((List.filter_sublist _).map _) hnn
    · show (((get_user_expenses db uid).filter fun r =>
          decide (inLastNDays r.date now 7)).map (·.amount)).sum ≤
        (((get_user_expenses db uid).filter fun r =>
          decide (inLastNDays r.date now 30)).map (·.amount)).sum
      have hsub : List.Sublist
          ((get_user_expenses db uid).filter fun r => decide (inLastNDays r.date now 7))
          ((get_user_expenses db uid).filter fun r => decide (inLastNDays r.date now 30)) := by
        apply List.monotone_filter_right
        intro a ha
        simp only [decide_eq_true_eq] at ha ⊢
        simp only [inLastNDays, usecPerDay] at ha ⊢
        omega
      refine List.Sublist.sum_le_sum (hsub.map _) ?_
      intro a ha
      exact hnn a (List.Sublist.subset ((List.filter_sublist _).map _) ha)
    · show (((get_user_expenses db uid).filter fun r =>
          decide (inLastNDays r.date now 30)).map (·.amount)).sum ≤
        ((get_user_expenses db uid).map (·.amount)).sum
      exact List.Sublist.sum_le_sum ((List.filter_sublist _).map _) hnn

/-- Witness for C8 on a concrete one-record set with a positive amount. -/
theorem C8_window_totals_monotone_witness :
    (ExpenseSummary.mk 5 5 1 "Food" 5 5 5 0 (1/6)).monthly_expenses ≤
      (ExpenseSummary.mk 5 5 1 "Food" 5 5 5 0 (1/6)).total_expenses ∧
    (ExpenseSummary.mk 5 5 1 "Food" 5 5 5 0 (1/6)).last_7_days ≤
      (ExpenseSummary.mk 5 5 1 "Food" 5 5 5 0 (1/6)).last_30_days ∧
    (ExpenseSummary.mk 5 5 1 "Food" 5 5 5 0 (1/6)).last_30_days ≤
      (ExpenseSummary.mk 5 5 1 "Food" 5 5 5 0 (1/6)).total_expenses :=
  have h : get_expense_summary
      [{ id := 1, userId := 1, category := "Food", amount := 5,
         date := ⟨2024, 1, 13⟩, description := "", createdAt := 1 }] 1
      ⟨⟨2024, 1, 20⟩, 36000000000⟩ =
      some (ExpenseSummary.mk 5 5 1 "Food" 5 5 5 0 (1/6)) := by
    with_unfolding_all rfl
  C8_window_totals_monotone
    [{ id := 1, userId := 1, category := "Food", amount := 5,
       date := ⟨2024, 1, 13⟩, description := "", createdAt := 1 }] 1
    ⟨⟨2024, 1, 20⟩, 36000000000⟩
    (ExpenseSummary.mk 5 5 1 "Food" 5 5 5 0 (1/6))
    (by
      intro r hr
      simp only [List.mem_singleton] at hr
      subst hr
      show (0 : ℚ) < 5
      norm_num) h

/-! ### Claim C7: timeline / summary round trip -/

/-- Dropping the head of a cons does not change `getLast?` when the tail is
non-empty. -/
theorem getLast?_cons_of_ne_nil {α : Type} (a : α) {l : List α} (h : l ≠ []) :
    (a :: l).getLast? = l.getLast? := by
  cases l with
  | nil => exact absurd rfl h
  | cons b t => exact List.getLast?_cons_cons

/-- The last running total produced by the `cumsum` pass is the accumulator
plus the sum of the amounts. -/
theorem cumFrom_cumulative_getLast (l : List ExpenseRow) (acc : ℚ) (h : l ≠ []) :
    ((cumFrom acc l).map (·.cumulative)).getLast? =
      some (acc + (l.map (·.amount)).sum) := by
  induction l generalizing acc with
  | nil => exact absurd rfl h
  | cons r t ih =>
    cases t with
    | nil => simp [cumFrom]
    | cons r2 t2 =>
      rw [cumFrom, List.map_cons, getLast?_cons_of_ne_nil _ (by simp [cumFrom]),
        ih (acc + r.amount) (by simp)]
      simp [add_assoc]

/-- Claim C7 (confirmed): for the same non-empty record set, the final
running total of the cumulative timeline equals the summary's total. -/
theorem C7_round_trip (db : List ExpenseRow) (uid : Nat) (now : DateTime)
    (s : ExpenseSummary) (tl : List TimelineEntry)
    (hs : get_expense_summary db uid now = some s)
    (htl : create_spending_timeline (get_user_expenses db uid) = some tl) :
    (tl.map (·.cumulative)).getLast? = some s.total_expenses := by
  rw [create_spending_timeline] at htl
  split at htl
  · exact absurd htl (by simp)
  · rename_i hemp
    rw [Option.some_inj] at htl
    subst htl
    have hne : (get_user_expenses db uid).insertionSort dateLe ≠ [] := by
      intro hnil
      apply hemp
      have hlen := congrArg List.length hnil
      rw [List.length_insertionSort] at hlen
      simp [List.isEmpty_iff, List.length_eq_zero.mp hlen]
    rw [cumFrom_cumulative_getLast _ 0 hne, zero_add]
    have hperm : List.Perm
        (((get_user_expenses db uid).insertionSort dateLe).map (·.amount))
        ((get_user_expenses db uid).map (·.amount)) :=
      (List.perm_insertionSort dateLe _).map _
    rw [hperm.sum_eq]
    rw [get_expense_summary] at hs
    split at hs
    · exact absurd hs (by simp)
    · rw [Option.some_inj] at hs
      subst hs
      rfl

/-- Witness for C7: on the one-record set the timeline ends at 5, the
summary's total. -/
theorem C7_round_trip_witness :
    (([⟨⟨2024, 1, 13⟩, 5, 5⟩] : List TimelineEntry).map (·.cumulative)).getLast? =
      some (ExpenseSummary.mk 5 5 1 "Food" 5 5 5 0 (1/6)).total_expenses :=
  have hs : get_expense_summary
      [{ id := 1, userId := 1, category := "Food", amount := 5,
         date := ⟨2024, 1, 13⟩, description := "", createdAt := 1 }] 1
      ⟨⟨2024, 1, 20⟩, 36000000000⟩ =
      some (ExpenseSummary.mk 5 5 1 "Food" 5 5 5 0 (1/6)) := by
    with_unfolding_all rfl
  have htl : create_spending_timeline
      (get_user_expenses
        [{ id := 1, userId := 1, category := "Food", amount := 5,
           date := ⟨2024, 1, 13⟩, description := "", createdAt := 1 }] 1) =
      some [⟨⟨2024, 1, 13⟩, 5, 5⟩] := by
    with_unfolding_all rfl
  C7_round_trip
    [{ id := 1, userId := 1, category := "Food", amount := 5,
       date := ⟨2024, 1, 13⟩, description := "", createdAt := 1 }] 1
    ⟨⟨2024, 1, 20⟩, 36000000000⟩
    (ExpenseSummary.mk 5 5 1 "Food" 5 5 5 0 (1/6)) [⟨⟨2024, 1, 13⟩, 5, 5⟩] hs htl

/-! ### Claim C2: top category -/

/-- Every element of a list of naturals is bounded by `foldr max 0`. -/
theorem mem_le_foldr_max (l : List Nat) (a : Nat) (h : a ∈ l) :
    a ≤ l.foldr max 0 := by
  induction l with
  | nil => cases h
  | cons b t ih =>
    rcases List.mem_cons.mp h with rfl | h'
    · exact le_max_left _ _
    · exact le_trans (ih h') (le_max_right _ _)

/-- `foldr max 0` is zero or attained by a list element. -/
theorem foldr_max_eq_zero_or_mem (l : List Nat) :
    l.foldr max 0 = 0 ∨ l.foldr max 0 ∈ l := by
  induction l with
  | nil => exact Or.inl rfl
  | cons b t ih =>
    rcases ih with h0 | hm
    · right
      rw [List.foldr_cons, h0, Nat.max_zero]
      exact List.mem_cons_self _ _
    · rcases le_total (t.foldr max 0) b with hb | hb
      · right
        rw [List.foldr_cons, max_eq_left hb]
        exact List.mem_cons_self _ _
      · right
        rw [List.foldr_cons, max_eq_right hb]
        exact List.mem_cons_of_mem _ hm

/-- Counterexample for C2: two single-occurrence categories tie; the category
inserted first (earliest `createdAt`) is `"Transport"`, but the summary
reports `"Food"`, the alphabetically smallest of the tied categories —
`Series.mode()` returns the modes sorted, not in first-seen order. -/
theorem C2_counterexample :
    (get_expense_summary
        [⟨1, 1, "Transport", 5, ⟨2024, 1, 10⟩, "", 1⟩,
         ⟨2, 1, "Food", 5, ⟨2024, 1, 12⟩, "", 2⟩] 1
        ⟨⟨2024, 1, 20⟩, 0⟩).map (·.top_category) = some "Food" ∧
    ([⟨1, 1, "Transport", 5, ⟨2024, 1, 10⟩, "", 1⟩,
      ⟨2, 1, "Food", 5, ⟨2024, 1, 12⟩, "", 2⟩] :
        List ExpenseRow).map (·.category) = ["Transport", "Food"] ∧
    ("Food" : String) ≠ "Transport" := by
  refine ⟨by with_unfolding_all rfl, rfl, by decide⟩

/-- Claim C2 (corrected): `top_category` is a category of maximal transaction
count, but ties are broken by lexicographic (alphabetical) order — the
reported category is the smallest string among the tied maximal-count
categories, not the first seen in insertion order.  The final conjunct ties
the characterization to the summary computation. -/
theorem C2_top_category_min_mode (xs : List String) (hne : xs ≠ []) :
    (topCategory xs ∈ xs ∧
      (∀ c ∈ xs, xs.count c ≤ xs.count (topCategory xs)) ∧
      (∀ c ∈ xs, xs.count c = xs.count (topCategory xs) → topCategory xs ≤ c)) ∧
    (∀ (db : List ExpenseRow) (uid : Nat) (now : DateTime) (s : ExpenseSummary),
        get_expense_summary db uid now = some s →
        s.top_category = topCategory ((get_user_expenses db uid).map (·.category))) := by
  constructor
  · have hmax : ∀ c ∈ xs, xs.count c ≤ ((xs.dedup.map fun c => xs.count c).foldr max 0) :=
      fun c hc => mem_le_foldr_max _ _ (List.mem_map_of_mem _ (List.mem_dedup.mpr hc))
    have hattain : ∃ c ∈ xs.dedup,
        xs.count c = (xs.dedup.map fun c => xs.count c).foldr max 0 := by
      rcases foldr_max_eq_zero_or_mem (xs.dedup.map fun c => xs.count c) with h0 | hm
      · obtain ⟨c, hc⟩ := List.exists_mem_of_ne_nil xs hne
        have h1 : 0 < xs.count c := List.count_pos_iff.mpr hc
        have h2 := hmax c hc
        omega
      · rcases List.mem_map.mp hm with ⟨c, hc, hcc⟩
        exact ⟨c, hc, hcc⟩
    obtain ⟨c₀, hc₀d, hc₀⟩ := hattain
    have hc₀f : c₀ ∈ xs.dedup.filter fun c =>
        decide (xs.count c = (xs.dedup.map fun c => xs.count c).foldr max 0) :=
      List.mem_filter.mpr ⟨hc₀d, by simp [hc₀]⟩
    cases hm : pandasMode xs with
    | nil =>
      exfalso
      have hmem : c₀ ∈ pandasMode xs := by
        simp only [pandasMode]
        exact (List.mem_insertionSort _).mpr hc₀f
      rw [hm] at hmem
      cases hmem
    | cons c rest =>
      have htc : topCategory xs = c := by rw [topCategory, hm]
      have hcmem : c ∈ pandasMode xs := by
        rw [hm]
        exact List.mem_cons_self _ _
      have hccand : c ∈ xs.dedup.filter fun c =>
          decide (xs.count c = (xs.dedup.map fun c => xs.count c).foldr max 0) := by
        simp only [pandasMode] at hcmem
        exact (List.mem_insertionSort _).mp hcmem
      obtain ⟨hcd, hcM⟩ := List.mem_filter.mp hccand
      have hcM' : xs.count c = (xs.dedup.map fun c => xs.count c).foldr max 0 := by
        simpa using hcM
      have hsorted : (pandasMode xs).Sorted (· ≤ ·) := by
        simp only [pandasMode]
        exact List.sorted_insertionSort _ _
      rw [hm] at hsorted
      have hminrest := (List.sorted_cons.mp hsorted).1
      refine ⟨?_, ?_, ?_⟩
      · rw [htc]
        exact List.mem_dedup.mp hcd
      · intro d hd
        rw [htc, hcM']
        exact hmax d hd
      · intro d hd hdc
        rw [htc] at hdc ⊢
        have hdcand : d ∈ xs.dedup.filter fun c =>
            decide (xs.count c = (xs.dedup.map fun c => xs.count c).foldr max 0) :=
          List.mem_filter.mpr ⟨List.mem_dedup.mpr hd, by simp [hdc, hcM']⟩
        have hdmem : d ∈ pandasMode xs := by
          simp only [pandasMode]
          exact (List.mem_insertionSort _).mpr hdcand
        rw [hm] at hdmem
        rcases List.mem_cons.mp hdmem with rfl | hdm
        · exact le_refl _
        · exact hminrest d hdm
  · intro db uid now s h
    rw [get_expense_summary] at h
    split at h
    · exact absurd h (by simp)
    · rw [Option.some_inj] at h
      subst h
      rfl

/-- Witness for C2 on the tied two-category list: the reported category is a
member attaining the maximal count. -/
theorem C2_top_category_min_mode_witness :
    topCategory ["Transport", "Food"] ∈ (["Transport", "Food"] : List String) :=
  (C2_top_category_min_mode ["Transport", "Food"] (by decide)).1.1

/-! ### Claim C10: password validation gate -/

/-- `validate_password_strength` succeeds exactly on passwords of length at
least 8 that contain an uppercase letter, a lowercase letter and a digit. -/
theorem validate_password_strength_fst (p : String) :
    (validate_password_strength p).1 = true ↔
      (PASSWORD_MIN_LENGTH ≤ p.length ∧ p.toList.any Char.isUpper = true ∧
        p.toList.any Char.isLower = true ∧ p.toList.any Char.isDigit = true) := by
  rw [validate_password_strength]
  split_ifs with h1 h2 h3 h4 <;> simp_all [PASSWORD_MIN_LENGTH]

/-- Claim C10 (confirmed): `create_user` rejects, without inserting a user,
any password shorter than 8 characters or lacking an uppercase letter, a
lowercase letter, or a digit; a user row is inserted only when the password
satisfies all four conditions. -/
theorem C10_password_gate (db : UserDb) (u p : String) :
    ((p.length < PASSWORD_MIN_LENGTH ∨ p.toList.any Char.isUpper = false ∨
        p.toList.any Char.isLower = false ∨ p.toList.any Char.isDigit = false) →
      (create_user db u p).1.1 = false ∧ (create_user db u p).2 = db) ∧
    ((create_user db u p).2 ≠ db →
      PASSWORD_MIN_LENGTH ≤ p.length ∧ p.toList.any Char.isUpper = true ∧
      p.toList.any Char.isLower = true ∧ p.toList.any Char.isDigit = true) := by
  have hweak : (p.length < PASSWORD_MIN_LENGTH ∨ p.toList.any Char.isUpper = false ∨
      p.toList.any Char.isLower = false ∨ p.toList.any Char.isDigit = false) →
      (validate_password_strength p).1 = false := by
    intro h
    cases hv : (validate_password_strength p).1
    · rfl
    · exfalso
      obtain ⟨hlen, hu, hl, hd⟩ := (validate_password_strength_fst p).mp hv
      rcases h with h | h | h | h
      · simp only [PASSWORD_MIN_LENGTH] at hlen h
        omega
      · rw [h] at hu
        cases hu
      · rw [h] at hl
        cases hl
      · rw [h] at hd
        cases hd
  cases hv1 : (validate_username u.trim).1 with
  | false =>
    have hres : create_user db u p = ((false, (validate_username u.trim).2), db) := by
      simp [create_user, hv1]
    rw [hres]
    exact ⟨fun _ => ⟨rfl, rfl⟩, fun hdb => absurd rfl hdb⟩
  | true =>
    cases hv2 : (validate_password_strength p).1 with
    | false =>
      have hres : create_user db u p = ((false, (validate_password_strength p).2), db) := by
        simp [create_user, hv1, hv2]
      rw [hres]
      exact ⟨fun _ => ⟨rfl, rfl⟩, fun hdb => absurd rfl hdb⟩
    | true =>
      have hc := (validate_password_strength_fst p).mp hv2
      constructor
      · intro hw
        rw [hweak hw] at hv2
        cases hv2
      · intro _
        exact hc

/-- Witness for C10: a short all-lowercase password is rejected and no user
row is inserted. -/
theorem C10_password_gate_witness :
    (create_user ⟨[]⟩ "alice" "abc").1.1 = false ∧
    (create_user ⟨[]⟩ "alice" "abc").2 = ⟨[]⟩ :=
  (C10_password_gate ⟨[]⟩ "alice" "abc").1 (Or.inl (by decide))

/-! ### Claim C3: cumulative timeline order and running totals -/

/-- Inserting a row that precedes (in the fetch order, with a distinct
`createdAt`) every element of a timeline-ordered list keeps the list
timeline-ordered: this is the stability argument for the date sort. -/
theorem orderedInsert_tlLe (a : ExpenseRow) (s : List ExpenseRow)
    (hs : s.Pairwise tlLe)
    (ha : ∀ b ∈ s, fetchLe a b ∧ a.createdAt ≠ b.createdAt) :
    (s.orderedInsert dateLe a).Pairwise tlLe := by
  induction s with
  | nil => simp [List.orderedInsert]
  | cons b s' ih =>
    rw [List.orderedInsert]
    obtain ⟨hb, hs'⟩ := List.pairwise_cons.mp hs
    split_ifs with hab
    · refine List.pairwise_cons.mpr ⟨?_, hs⟩
      intro c hc
      rcases List.mem_cons.mp hc with rfl | hc'
      · obtain ⟨hf, hne⟩ := ha c (List.mem_cons_self _ _)
        rcases hf with hlt | ⟨heq, hle⟩
        · exact absurd hlt (by simp only [dateLe] at hab; omega)
        · exact Or.inr ⟨heq, Nat.lt_of_le_of_ne hle fun hcc => hne hcc.symm⟩
      · obtain ⟨hf, hne⟩ := ha c (List.mem_cons_of_mem _ hc')
        have htlbc := hb c hc'
        rcases hf with hlt | ⟨heq, hle⟩
        · exfalso
          simp only [dateLe] at hab
          rcases htlbc with h2 | ⟨h2, _⟩ <;> omega
        · exact Or.inr ⟨heq, Nat.lt_of_le_of_ne hle fun hcc => hne hcc.symm⟩
    · refine List.pairwise_cons.mpr
        ⟨?_, ih hs' fun d hd => ha d (List.mem_cons_of_mem _ hd)⟩
      intro c hc
      rcases (List.mem_orderedInsert _).mp hc with rfl | hc'
      · exact Or.inl (by simp only [dateLe] at hab; omega)
      · exact hb c hc'

/-- Sorting a fetch-ordered list (descending date, then descending
`createdAt`, all `createdAt` distinct) by ascending date with the stable
insertion sort yields the timeline order: ascending dates, equal-date rows in
descending `createdAt` order. -/
theorem insertionSort_dateLe_pairwise (l : List ExpenseRow)
    (hl : l.Pairwise fetchLe)
    (hd : l.Pairwise fun x y => x.createdAt ≠ y.createdAt) :
    (l.insertionSort dateLe).Pairwise tlLe := by
  induction l with
  | nil => simp
  | cons a t ih =>
    rw [List.insertionSort]
    obtain ⟨hal, hl'⟩ := List.pairwise_cons.mp hl
    obtain ⟨had, hd'⟩ := List.pairwise_cons.mp hd
    exact orderedInsert_tlLe a _ (ih hl' hd') fun b hb =>
      ⟨hal b ((List.mem_insertionSort dateLe).mp hb),
        had b ((List.mem_insertionSort dateLe).mp hb)⟩

/-- Each running total of the `cumsum` pass is the accumulator plus the sum
of the amounts up to and including that position. -/
theorem cumFrom_get (l : List ExpenseRow) (acc : ℚ) (i : Nat)
    (hi : i < (cumFrom acc l).length) :
    ((cumFrom acc l).get ⟨i, hi⟩).cumulative =
      acc + (((cumFrom acc l).map (·.amount)).take (i + 1)).sum := by
  induction l generalizing acc i with
  | nil => simp [cumFrom] at hi
  | cons r t ih =>
    cases i with
    | zero => simp [cumFrom]
    | succ n =>
      have hn : n < (cumFrom (acc + r.amount) t).length := by
        simpa [cumFrom] using hi
      have := ih (acc + r.amount) n hn
      simp only [cumFrom, List.get_cons_succ, List.map_cons, List.take_succ_cons,
        List.sum_cons] at this ⊢
      rw [this, add_assoc]

set_option maxRecDepth 4000 in
/-- Counterexample for C3: two same-date records inserted in order
`[X amount=10, Y amount=20]` (distinct, increasing `created_at`) produce the
timeline `[{Y,20,20},{X,10,30}]`, not the claimed `[{X,10,10},{Y,20,30}]`:
the frame arrives ordered `date DESC, created_at DESC`, so the stable
ascending date sort lists equal-date rows in reverse insertion order. -/
theorem C3_counterexample :
    create_spending_timeline (get_user_expenses
        [⟨1, 1, "Food", 10, ⟨2024, 1, 10⟩, "X", 1⟩,
         ⟨2, 1, "Food", 20, ⟨2024, 1, 10⟩, "Y", 2⟩] 1) =
      some [⟨⟨2024, 1, 10⟩, 20, 20⟩, ⟨⟨2024, 1, 10⟩, 10, 30⟩] ∧
    some [(⟨⟨2024, 1, 10⟩, 20, 20⟩ : TimelineEntry), ⟨⟨2024, 1, 10⟩, 10, 30⟩] ≠
      some [(⟨⟨2024, 1, 10⟩, 10, 10⟩ : TimelineEntry), ⟨⟨2024, 1, 10⟩, 20, 30⟩] := by
  refine ⟨by with_unfolding_all rfl, by with_unfolding_all decide⟩

/-- Claim C3 (corrected): the cumulative timeline sorts the records ascending
by date, but equal-date records appear in reverse insertion order (descending
`createdAt`), because the snapshot is fetched ordered `date DESC,
created_at DESC` and the ascending date sort is stable on it; `runningTotal`
is the prefix sum of `amount` in that order; scenario D therefore yields
`[{Y,20,20},{X,10,30}]`. -/
theorem C3_cumulative_timeline (db : List ExpenseRow) (uid : Nat)
    (hd : (db.filter fun r => decide (r.userId = uid)).Pairwise
      fun x y => x.createdAt ≠ y.createdAt) :
    ((get_user_expenses db uid).insertionSort dateLe).Pairwise tlLe ∧
    (get_user_expenses db uid ≠ [] →
      create_spending_timeline (get_user_expenses db uid) =
        some (cumFrom 0 ((get_user_expenses db uid).insertionSort dateLe))) ∧
    (∀ (tl : List TimelineEntry),
        create_spending_timeline (get_user_expenses db uid) = some tl →
        ∀ i (hi : i < tl.length),
          (tl.get ⟨i, hi⟩).cumulative = ((tl.map (·.amount)).take (i + 1)).sum) ∧
    create_spending_timeline (get_user_expenses
        [⟨1, 1, "Food", 10, ⟨2024, 1, 10⟩, "X", 1⟩,
         ⟨2, 1, "Food", 20, ⟨2024, 1, 10⟩, "Y", 2⟩] 1) =
      some [⟨⟨2024, 1, 10⟩, 20, 20⟩, ⟨⟨2024, 1, 10⟩, 10, 30⟩] := by
  refine ⟨?_, ?_, ?_, by with_unfolding_all rfl⟩
  · have h1 : (get_user_expenses db uid).Pairwise fetchLe :=
      List.sorted_insertionSort fetchLe _
    have h2 : (get_user_expenses db uid).Pairwise
        fun x y => x.createdAt ≠ y.createdAt :=
      ((List.perm_insertionSort fetchLe _).pairwise_iff
        fun hxy => Ne.symm hxy).mpr hd
    exact insertionSort_dateLe_pairwise _ h1 h2
  · intro hne
    rw [create_spending_timeline,
      if_neg (by simp [List.isEmpty_iff, hne])]
  · intro tl htl i hi
    rw [create_spending_timeline] at htl
    split at htl
    · exact absurd htl (by simp)
    · rw [Option.some_inj] at htl
      subst htl
      rw [cumFrom_get _ 0 i hi, zero_add]

/-- Witness for C3: on the scenario-D record set the sorted rows are pairwise
in timeline order. -/
theorem C3_cumulative_timeline_witness :
    ((get_user_expenses
        [⟨1, 1, "Food", 10, ⟨2024, 1, 10⟩, "X", 1⟩,
         ⟨2, 1, "Food", 20, ⟨2024, 1, 10⟩, "Y", 2⟩] 1).insertionSort
      dateLe).Pairwise tlLe :=
  (C3_cumulative_timeline
    [⟨1, 1, "Food", 10, ⟨2024, 1, 10⟩, "X", 1⟩,
     ⟨2, 1, "Food", 20, ⟨2024, 1, 10⟩, "Y", 2⟩] 1 (by decide)).1

end SmartSpend
